import Mathlib

/-!
Verification of the "Learn with Jiji" backend service.

The service is an Express pipeline: authentication middleware, body
validation middleware, the ask-jiji controller, a fire-and-forget query
log service, a not-found handler and a terminal error handler.  This file
gives a shallow embedding of those components and proves properties about
them.  JavaScript strings are modelled as Lean strings; the JavaScript
string operations used by the code (trim, startsWith, substring, split,
toLowerCase, includes) are re-implemented below on the underlying
character lists with structural recursion so that every definition can be
evaluated by the kernel.  All inputs considered are ASCII, on which the
JavaScript and Lean semantics of these operations agree.
-/

/-! ## JavaScript string primitives -/

/-- Whitespace characters recognised by the JavaScript trim operation
(restricted to the ASCII whitespace that can occur in our inputs). -/
def isJsWhitespace (c : Char) : Bool :=
  c == ' ' || c == '\t' || c == '\n' || c == '\r'

/-- Drop leading whitespace characters from a character list. -/
def dropLeadingWs : List Char → List Char
  | [] => []
  | c :: cs => if isJsWhitespace c then dropLeadingWs cs else c :: cs

/-- JavaScript stringValue.trim, removing leading and trailing whitespace. -/
def jsTrim (s : String) : String :=
  ⟨dropLeadingWs ((dropLeadingWs s.data.reverse).reverse)⟩

/-- Whether the first list is an initial segment of the second. -/
def leadsWith : List Char → List Char → Bool
  | [], _ => true
  | _ :: _, [] => false
  | p :: ps, c :: cs => p == c && leadsWith ps cs

/-- JavaScript stringValue.startsWith pat. -/
def jsStartsWith (s pat : String) : Bool := leadsWith pat.data s.data

/-- JavaScript stringValue.split with separator ".", as a list of segments. -/
def splitDot : List Char → List (List Char)
  | [] => [[]]
  | c :: cs =>
    let r := splitDot cs
    if c == '.' then [] :: r
    else
      match r with
      | [] => [[c]]
      | h :: t => (c :: h) :: t

/-- The number of segments of JavaScript stringValue.split with separator ".". -/
def jsSplitDotLen (s : String) : Nat := (splitDot s.data).length

/-- Lower-case a single ASCII character, as JavaScript toLowerCase does. -/
def lowerChar (c : Char) : Char :=
  if 'A' ≤ c && c ≤ 'Z' then Char.ofNat (c.toNat + 32) else c

/-- JavaScript stringValue.toLowerCase on ASCII strings. -/
def jsLower (s : String) : String := ⟨s.data.map lowerChar⟩

/-- Whether the pattern list occurs as a contiguous sublist of the text list. -/
def hasSub : List Char → List Char → Bool
  | pat, [] => leadsWith pat []
  | pat, c :: cs => leadsWith pat (c :: cs) || hasSub pat cs

/-- JavaScript stringValue.includes pat. -/
def jsIncludes (s pat : String) : Bool := hasSub pat.data s.data

/-! ## Response model

Every handler of the service writes exactly one response shaped like the
ApiResponse interface of src/types/api-types.ts: a success flag, an
optional data payload, an optional error string, and (for validation
failures only) a details list.  The HTTP status code set on the Express
response object is recorded alongside. -/

/-- One entry of the details array produced by the validation middleware
(interface ValidationErrorDetail in src/middleware/validation.middleware.ts). -/
structure ValidationErrorDetail where
  field : String
  message : String
  code : String
deriving DecidableEq

/-- The resource type enum of src/types/api-types.ts. -/
inductive ResourceType
  | ppt
  | video
deriving DecidableEq

/-- A row of the resources table (interface Resource in src/types/api-types.ts). -/
structure Resource where
  id : String
  title : String
  description : String
  type : ResourceType
  file_url : String
  tags : List String
deriving DecidableEq

/-- The public resource shape returned to clients (interface ResourceResponse). -/
structure ResourceResponse where
  id : String
  title : String
  type : ResourceType
  url : String
deriving DecidableEq

/-- The data payload of a successful ask-jiji response (interface AskJijiData). -/
structure AskJijiData where
  answer : String
  resources : List ResourceResponse
deriving DecidableEq

/-- The payload carried in the data field of a response. -/
inductive ResponseData
  | noData
  | ask (d : AskJijiData)
  | health (status : String) (timestamp : String) (environment : String)
deriving DecidableEq

/-- An HTTP response as constructed by the service: status code plus the
JSON body fields of ApiResponse (success, optional data, optional error)
and the optional details list of validation failures. -/
structure HttpResponse where
  status : Nat
  success : Bool
  data : ResponseData
  error : Option String
  details : Option (List ValidationErrorDetail)
deriving DecidableEq

/-- The failure responses built inline by the middleware:
res.status(code).json with success false and an error string. -/
def errResponse (status : Nat) (msg : String) : HttpResponse :=
  { status := status, success := false, data := .noData,
    error := some msg, details := none }

/-! ## Validation middleware (src/middleware/validation.middleware.ts)

The askJijiSchema is
z.object with query given by
z.string
 .min 1  ("Query cannot be empty")
 .max 1000  ("Query cannot exceed 1000 characters")
 .trim
 .refine length positive  ("Query cannot be only whitespace").
The min and max checks run on the raw string, the trim transform runs
after them, and the refinement runs on the trimmed value; the checks are
not fatal, so every failing check contributes one issue whose path is
the query field. -/

/-- The query field of an inbound JSON body: absent, a non-string JSON
value, or a string. -/
inductive BodyField
  | missing
  | notString
  | str (s : String)
deriving DecidableEq

/-- The issue produced when the query field is absent or not a string. -/
def invalidTypeIssue : ValidationErrorDetail :=
  ⟨"query", "Query must be a string", "invalid_type"⟩

/-- The issue produced by the min 1 check. -/
def tooSmallIssue : ValidationErrorDetail :=
  ⟨"query", "Query cannot be empty", "too_small"⟩

/-- The issue produced by the max 1000 check. -/
def tooBigIssue : ValidationErrorDetail :=
  ⟨"query", "Query cannot exceed 1000 characters", "too_big"⟩

/-- The issue produced by the refinement on the trimmed value. -/
def whitespaceIssue : ValidationErrorDetail :=
  ⟨"query", "Query cannot be only whitespace", "custom"⟩

/-- The issues the askJijiSchema checks raise for a string query, in check
order: min 1 and max 1000 on the raw string, then the refinement on the
trimmed string. -/
def queryIssues (s : String) : List ValidationErrorDetail :=
  (if s.length < 1 then [tooSmallIssue] else []) ++
  (if 1000 < s.length then [tooBigIssue] else []) ++
  (if (jsTrim s).length = 0 then [whitespaceIssue] else [])

/-- The parsed body accepted by the schema (type AskJijiInput). -/
structure AskJijiInput where
  query : String
deriving DecidableEq

/-- askJijiSchema.parse on the query field of the body: an absent or
non-string field is an invalid-type issue; a string field is accepted,
normalised to its trimmed form, exactly when no check raises an issue. -/
def askJijiSchemaParse : BodyField → Except (List ValidationErrorDetail) AskJijiInput
  | .missing => .error [invalidTypeIssue]
  | .notString => .error [invalidTypeIssue]
  | .str s =>
    if queryIssues s = [] then .ok ⟨jsTrim s⟩ else .error (queryIssues s)

/-- Outcome of a middleware around the body: a response written without
calling next, or next called with the replaced (parsed) body. -/
inductive ValidationOutcome
  | rejected (r : HttpResponse)
  | proceeded (body : AskJijiInput)
deriving DecidableEq

/-- One line of the concatenated summary: field, colon, message. -/
def detailLine (d : ValidationErrorDetail) : String := d.field ++ ": " ++ d.message

/-- The concatenated human-readable summary of the validation error body. -/
def validationSummary (ds : List ValidationErrorDetail) : String :=
  "Validation failed: " ++ String.intercalate ", " (ds.map detailLine)

/-- validateBody askJijiSchema: parse the body; on success replace the body
with the parsed value and call next; on a ZodError respond 400 with the
details list and the concatenated summary, never calling next. -/
def validateBody (body : BodyField) : ValidationOutcome :=
  match askJijiSchemaParse body with
  | .ok parsed => .proceeded parsed
  | .error details =>
    .rejected { status := 400, success := false, data := .noData,
                error := some (validationSummary details), details := some details }

/-- Whether a validation outcome called next. -/
def isProceeded : ValidationOutcome → Bool
  | .proceeded _ => true
  | .rejected _ => false

/-! ## Authentication middleware (src/middleware/auth.middleware.ts)

The config module (src/config/supabase.ts) sets the anonymous client to a
non-null value exactly when isSupabaseConfigured is true, so the check
isSupabaseConfigured AND supabase non-null in the middleware collapses to
one boolean.  The result of supabase.auth.getUser is modelled by an
oracle from the token to a GetUserResult. -/

/-- The resolved identity attached to the request (req.user). -/
structure AuthUser where
  id : String
  email : String
  role : String
deriving DecidableEq

/-- The fixed mock identity synthesized when Supabase is unconfigured. -/
def mockUser : AuthUser :=
  { id := "mock-user-id", email := "mock@example.com", role := "authenticated" }

/-- The possible outcomes of awaiting supabase.auth.getUser on a token:
a user record (with possibly absent email and role), an error or missing
user, or a thrown exception. -/
inductive GetUserResult
  | user (id : String) (email : Option String) (role : Option String)
  | err
  | threw

/-- Outcome of the authentication middleware: a response written without
calling next, or next called with the identity attached to the request. -/
inductive AuthOutcome
  | respond (r : HttpResponse)
  | proceed (u : AuthUser)
deriving DecidableEq

/-- Whether the Authorization header is present and starts with the string
Bearer followed by a space (the authHeader startsWith check). -/
def bearerHeader : Option String → Bool
  | none => false
  | some s => jsStartsWith s "Bearer "

/-- authHeader.substring 7, the token after the Bearer prefix. -/
def tokenOf (authHeader : Option String) : String :=
  ⟨(authHeader.getD "").data.drop 7⟩

/-- The authenticate middleware.  With no bearer-style header: mock user
when unconfigured, else 401 naming the expected header shape.  With a
bearer header and Supabase unconfigured: structural check that the token
has three dot-separated segments, mock user on success, 401 on failure.
With Supabase configured: delegate to getUser; 401 on error or missing
user, attach the verified identity (with empty-string email and role
authenticated as defaults) on success; a thrown exception is caught and
answered with 500. -/
def authenticate (isSupabaseConfigured : Bool) (getUser : String → GetUserResult)
    (authHeader : Option String) : AuthOutcome :=
  if bearerHeader authHeader = false then
    if isSupabaseConfigured = false then .proceed mockUser
    else .respond (errResponse 401 "Authorization header required. Use: Bearer <token>")
  else
    if isSupabaseConfigured = false then
      if jsSplitDotLen (tokenOf authHeader) = 3 then .proceed mockUser
      else .respond (errResponse 401 "Invalid token format")
    else
      match getUser (tokenOf authHeader) with
      | .user id email role => .proceed ⟨id, email.getD "", role.getD "authenticated"⟩
      | .err => .respond (errResponse 401 "Invalid or expired token")
      | .threw => .respond (errResponse 500 "Authentication service unavailable")

/-! ## Resource service

Modelled from the spec: the file src/services/resource-service.ts, which
defines generateMockAnswer and searchResources, is not among the provided
source files; only its import and call sites in
src/controllers/ask-jiji.controller.ts are.  The definitions below follow
sections 4.3, 4.4 and 8 of the spec. -/

/-- Modelled from the spec: the RAG-specific canned explanation returned by
the missing generateMockAnswer of src/services/resource-service.ts; per the
end-to-end property it contains the phrase Retrieval-Augmented Generation. -/
def ragAnswer : String :=
  "Retrieval-Augmented Generation (RAG) combines search with LLMs to ground answers in retrieved documents."

/-- Modelled from the spec: the canned explanation for neural-network and
deep-learning queries. -/
def neuralNetworkAnswer : String :=
  "Neural networks and deep learning models learn layered representations from data."

/-- Modelled from the spec: the canned explanation for machine-learning queries. -/
def machineLearningAnswer : String :=
  "Machine learning builds models that improve from data without explicit programming."

/-- Modelled from the spec: the canned explanation for transformer queries. -/
def transformerAnswer : String :=
  "The transformer architecture uses attention to process sequences in parallel."

/-- Modelled from the spec: the canned explanation for LLM queries. -/
def llmAnswer : String :=
  "Large language models generate text by predicting tokens learned from training corpora."

/-- Modelled from the spec: the generic fallback answer returned when no
keyword predicate matches. -/
def fallbackAnswer : String :=
  "That is a great question! Explore the linked learning resources to dive deeper."

/-- Modelled from the spec: generateMockAnswer of the missing
src/services/resource-service.ts.  A pure function that lower-cases its
input, checks an ordered list of keyword predicates and returns the first
matching canned explanation, or the generic fallback when none match. -/
def generateMockAnswer (query : String) : String :=
  let q := jsLower query
  if jsIncludes q "rag" then ragAnswer
  else if jsIncludes q "neural network" || jsIncludes q "deep learning" then neuralNetworkAnswer
  else if jsIncludes q "machine learning" then machineLearningAnswer
  else if jsIncludes q "transformer" then transformerAnswer
  else if jsIncludes q "llm" || jsIncludes q "large language model" then llmAnswer
  else fallbackAnswer

/-- Modelled from the spec: whether the lower-cased query contains any of
the keywords known to generateMockAnswer. -/
def mentionsKnownKeyword (query : String) : Bool :=
  let q := jsLower query
  jsIncludes q "rag" || jsIncludes q "neural network" || jsIncludes q "deep learning" ||
    jsIncludes q "machine learning" || jsIncludes q "transformer" ||
    jsIncludes q "llm" || jsIncludes q "large language model"

/-- The backing resources store as seen by one search: either the rows of
the resources table, or a store whose query fails with an error. -/
inductive DbState
  | table (rs : List Resource)
  | failing (message : String)

/-- Modelled from the spec: the case-insensitive substring match against
title and description, or tag-set overlap, that the search issues. -/
def resourceMatches (query : String) (r : Resource) : Bool :=
  let q := jsLower query
  jsIncludes (jsLower r.title) q || jsIncludes (jsLower r.description) q ||
    r.tags.any (fun t => jsIncludes q (jsLower t))

/-- Modelled from the spec: the cap on the number of results returned. -/
def searchLimit : Nat := 5

/-- Mapping an internal resources row to the public response shape,
dropping internal-only fields. -/
def toResourceResponse (r : Resource) : ResourceResponse :=
  { id := r.id, title := r.title, type := r.type, url := r.file_url }

/-- Modelled from the spec: searchResources of the missing
src/services/resource-service.ts.  Returns an empty sequence when the
backing store is unconfigured; converts any query error into an empty
result; otherwise returns the matching rows, capped and mapped to the
public shape. -/
def searchResources (isSupabaseConfigured : Bool) (db : DbState) (query : String) :
    List ResourceResponse :=
  if isSupabaseConfigured = false then []
  else
    match db with
    | .failing _ => []
    | .table rs => ((rs.filter (resourceMatches query)).take searchLimit).map toResourceResponse

/-! ## Query log service (src/services/query-service.ts) -/

/-- A row of the queries table as returned by the insert (interface SavedQuery). -/
structure SavedQuery where
  id : String
  user_id : Option String
  query_text : String
  answer_text : Option String
  resources_returned : List String
  created_at : String
deriving DecidableEq

/-- The possible outcomes of the awaited insert on the queries table:
a returned row, a reported database error, or a thrown exception. -/
inductive InsertResult
  | ok (row : SavedQuery)
  | dbError (message : String)
  | threw (message : String)
deriving DecidableEq

/-- saveQuery: a no-op returning null when the service-role client is
unconfigured; otherwise insert one row, returning it on success and null
when the insert reports an error or throws (both are logged and
discarded).  The function is total, so it never propagates a failure to
its caller. -/
def saveQuery (isSupabaseAdminConfigured : Bool) (insert : InsertResult)
    (userId : Option String) (queryText : String) (answerText : String)
    (resourceIds : List String) : Option SavedQuery :=
  if isSupabaseAdminConfigured = false then none
  else
    match insert with
    | .ok row => some row
    | .dbError _ => none
    | .threw _ => none

/-! ## Ask-jiji controller (src/controllers/ask-jiji.controller.ts) -/

/-- The arguments of the one background saveQuery call the controller fires. -/
structure SaveQueryCall where
  userId : Option String
  queryText : String
  answerText : String
  resourceIds : List String
deriving DecidableEq

/-- The result of running a handler: the response written, plus the
arguments of the detached saveQuery call when one was fired. -/
structure HandlerResult where
  response : HttpResponse
  savedCall : Option SaveQueryCall
deriving DecidableEq

/-- req.user?.id or null: the JavaScript or-null coercion also maps an
empty-string id to null. -/
def userIdOrNull : Option AuthUser → Option String
  | none => none
  | some u => if u.id = "" then none else some u.id

/-- handleAskJiji: generate the answer, search the resources, fire the
detached saveQuery call with the ids of the found resources, and respond
200 with success true and the answer plus resources as data. -/
def handleAskJiji (user : Option AuthUser) (isSupabaseConfigured : Bool) (db : DbState)
    (input : AskJijiInput) : HandlerResult :=
  let query := input.query
  let userId := userIdOrNull user
  let answer := generateMockAnswer query
  let resources := searchResources isSupabaseConfigured db query
  let resourceIds := resources.map (fun r => r.id)
  { response := { status := 200, success := true, data := .ask ⟨answer, resources⟩,
                  error := none, details := none },
    savedCall := some ⟨userId, query, answer, resourceIds⟩ }

/-- The route pipeline of POST /ask-jiji (src/routes/ask-jiji.routes.ts):
authenticate, then validateBody askJijiSchema, then handleAskJiji.  A
middleware that responds ends the pipeline with that response. -/
def askJijiRoute (isSupabaseConfigured : Bool) (getUser : String → GetUserResult)
    (db : DbState) (authHeader : Option String) (body : BodyField) : HandlerResult :=
  match authenticate isSupabaseConfigured getUser authHeader with
  | .respond r => ⟨r, none⟩
  | .proceed user =>
    match validateBody body with
    | .rejected r => ⟨r, none⟩
    | .proceeded input => handleAskJiji (some user) isSupabaseConfigured db input

/-! ## Terminal handlers and health endpoint
(src/middleware/error-handler.middleware.ts and src/server.ts) -/

/-- An error object reaching the terminal handler: an AppError carrying a
statusCode (the AppError constructor defaults it to 500), or any other
error, which carries only a message. -/
inductive ErrObject
  | appError (message : String) (statusCode : Nat)
  | plain (message : String)
deriving DecidableEq

/-- The message of an error object. -/
def errMessage : ErrObject → String
  | .appError m _ => m
  | .plain m => m

/-- errorHandler: status from the AppError when the error is one, else 500;
the body has success false and an error string that is the generic message
exactly when NODE_ENV is production and the status is 500, and the real
message of the error otherwise. -/
def errorHandler (isProduction : Bool) (err : ErrObject) : HttpResponse :=
  let statusCode := match err with | .appError _ c => c | .plain _ => 500
  { status := statusCode, success := false, data := .noData,
    error := some (if isProduction && statusCode == 500
                   then "Internal server error" else errMessage err),
    details := none }

/-- notFoundHandler: a structured 404 naming the method and path. -/
def notFoundHandler (method : String) (path : String) : HttpResponse :=
  { status := 404, success := false, data := .noData,
    error := some ("Route " ++ method ++ " " ++ path ++ " not found"),
    details := none }

/-- The GET /health handler of src/server.ts: always 200 with success true
and a healthy status payload. -/
def healthHandler (nodeEnv : String) (timestamp : String) : HttpResponse :=
  { status := 200, success := true,
    data := .health "healthy" timestamp nodeEnv, error := none, details := none }

/-- A getUser oracle whose verification always fails (used to instantiate
closed statements). -/
def noGetUser : String → GetUserResult := fun _ => .err

/-- A getUser oracle that verifies every token to a fixed identity (used to
instantiate closed statements). -/
def okGetUser : String → GetUserResult :=
  fun _ => .user "user-1" (some "user@example.com") (some "authenticated")

/-! ## Supporting lemmas -/

theorem dropLeadingWs_length_le (l : List Char) : (dropLeadingWs l).length ≤ l.length := by
  induction l with
  | nil => exact Nat.le_refl _
  | cons c cs ih =>
    by_cases h : isJsWhitespace c
    · simp only [dropLeadingWs, h, if_true, List.length_cons]
      omega
    · simp [dropLeadingWs, h]

theorem jsTrim_length_le (s : String) : (jsTrim s).length ≤ s.length := by
  show (dropLeadingWs ((dropLeadingWs s.data.reverse).reverse)).length ≤ s.data.length
  calc (dropLeadingWs ((dropLeadingWs s.data.reverse).reverse)).length
      ≤ ((dropLeadingWs s.data.reverse).reverse).length := dropLeadingWs_length_le _
    _ = (dropLeadingWs s.data.reverse).length := List.length_reverse _
    _ ≤ (s.data.reverse).length := dropLeadingWs_length_le _
    _ = s.data.length := List.length_reverse _

theorem queryIssues_eq_nil (s : String) :
    queryIssues s = [] ↔ (1 ≤ s.length ∧ s.length ≤ 1000 ∧ 1 ≤ (jsTrim s).length) := by
  unfold queryIssues
  by_cases h1 : s.length < 1 <;> by_cases h2 : 1000 < s.length <;>
    by_cases h3 : (jsTrim s).length = 0 <;> simp [h1, h2, h3] <;> omega

/-! ## Claim C1 -/

/-- Claim C1: for every JSON request body in which the query field is
missing, or is a string that is empty or whitespace-only (trimmed length
zero) or longer than 1000 characters, the validation middleware responds
with status 400 and success false, carrying a non-empty details array that
contains an entry for the query field, with the error string being the
concatenated human-readable summary of the details; the rejected outcome
never invokes the next stage of the pipeline. -/
theorem c1_bad_query_rejected_with_details (b : BodyField)
    (h : b = .missing ∨ ∃ s, b = .str s ∧ ((jsTrim s).length = 0 ∨ 1000 < s.length)) :
    ∃ ds, validateBody b =
        .rejected { status := 400, success := false, data := .noData,
                    error := some (validationSummary ds), details := some ds } ∧
      ds ≠ [] ∧ ∃ d ∈ ds, d.field = "query" := by
  rcases h with rfl | ⟨s, rfl, hs⟩
  · exact ⟨[invalidTypeIssue], rfl, by simp, invalidTypeIssue, by simp, rfl⟩
  · have hne : queryIssues s ≠ [] := by
      rcases hs with h0 | h0
      · simp [queryIssues, h0]
      · simp [queryIssues, h0]
    have hmem : ∃ d ∈ queryIssues s, d.field = "query" := by
      rcases hs with h0 | h0
      · exact ⟨whitespaceIssue, by simp [queryIssues, h0], rfl⟩
      · exact ⟨tooBigIssue, by simp [queryIssues, h0], rfl⟩
    refine ⟨queryIssues s, ?_, hne, hmem⟩
    simp [validateBody, askJijiSchemaParse, hne]

/-- Witness for claim C1 at the concrete body with the query field missing. -/
theorem c1_witness :
    ∃ ds, validateBody .missing =
        .rejected { status := 400, success := false, data := .noData,
                    error := some (validationSummary ds), details := some ds } ∧
      ds ≠ [] ∧ ∃ d ∈ ds, d.field = "query" :=
  c1_bad_query_rejected_with_details .missing (Or.inl rfl)

/-! ## Claim C3 -/

/-- The letter a followed by 1000 spaces: 1001 characters, trimmed length 1. -/
def c3LongInput : String := ⟨'a' :: List.replicate 1000 ' '⟩

set_option maxRecDepth 40000 in
/-- Counterexample to claim C3 as stated: the claim says a string body is
accepted exactly when its trimmed length is between 1 and 1000, but this
1001-character input has trimmed length 1 and is still rejected, because
the min and max checks of the schema run on the raw string before the
trim transform. -/
theorem c3_counterexample :
    1 ≤ (jsTrim c3LongInput).length ∧ (jsTrim c3LongInput).length ≤ 1000 ∧
      isProceeded (validateBody (.str c3LongInput)) = false := by
  decide

/-- Claim C3 as amended: a request body with a string query s is accepted
exactly when the raw length of s is at most 1000 and the trimmed length of
s is at least 1 (so s is not whitespace-only); on acceptance the body is
replaced by the parsed value, whose query is the trimmed string. -/
theorem c3_accepts_iff_raw_length_bounds (s : String) (q : AskJijiInput) :
    validateBody (.str s) = .proceeded q ↔
      (s.length ≤ 1000 ∧ 1 ≤ (jsTrim s).length ∧ q = ⟨jsTrim s⟩) := by
  by_cases hne : queryIssues s = []
  · have h3 := (queryIssues_eq_nil s).mp hne
    simp only [validateBody, askJijiSchemaParse, hne, if_true]
    constructor
    · intro hq
      cases hq
      exact ⟨h3.2.1, h3.2.2, rfl⟩
    · rintro ⟨-, -, rfl⟩
      rfl
  · simp only [validateBody, askJijiSchemaParse, hne, if_false]
    constructor
    · intro hq
      cases hq
    · rintro ⟨ha, hb, -⟩
      exact absurd ((queryIssues_eq_nil s).mpr
        ⟨le_trans hb (jsTrim_length_le s), ha, hb⟩) hne

/-! ## Claim C2 -/

/-- Counterexample to claim C2 as stated: the claim says that in mock mode
every request, whatever the contents of its Authorization header, is
treated as authenticated, and that a valid body then yields 200.  But a
Bearer header whose token does not have three dot-separated segments is
rejected with 401 by the structural check of the mock branch, and the
pipeline answers 401 even with a valid body. -/
theorem c2_counterexample :
    authenticate false noGetUser (some "Bearer abc") =
      .respond (errResponse 401 "Invalid token format") ∧
    (askJijiRoute false noGetUser (.table []) (some "Bearer abc")
        (.str "Explain RAG")).response.status = 401 := by
  decide

/-- Claim C2 as amended: when the identity backend is unconfigured, a
request with no Authorization header or a non-Bearer header is treated as
authenticated with the fixed mock identity, and a request with a Bearer
header is treated as authenticated with the mock identity exactly when
its token has three dot-separated segments; in particular a request with
header Bearer a.b.c and a valid body succeeds with 200. -/
theorem c2_mock_mode_auth (getUser : String → GetUserResult) (h : Option String)
    (db : DbState) :
    (authenticate false getUser h = .proceed mockUser ↔
      (bearerHeader h = false ∨ jsSplitDotLen (tokenOf h) = 3)) ∧
    (askJijiRoute false getUser db (some "Bearer a.b.c")
        (.str "Explain RAG")).response.status = 200 := by
  constructor
  · by_cases hb : bearerHeader h = false
    · simp [authenticate, hb]
    · by_cases hl : jsSplitDotLen (tokenOf h) = 3
      · simp [authenticate, hb, hl]
      · simp [authenticate, hb, hl]
  · rfl

/-! ## Claim C4 -/

/-- Claim C4: for every request whose Authorization header is absent or
does not start with the Bearer prefix, the middleware responds 401 with
the error message naming the expected header shape when the identity
backend is configured (without calling the next stage), and attaches the
fixed mock identity and proceeds when it is unconfigured. -/
theorem c4_no_bearer_header (cfg : Bool) (getUser : String → GetUserResult)
    (h : Option String) (hb : bearerHeader h = false) :
    authenticate cfg getUser h =
      (if cfg then
        .respond (errResponse 401 "Authorization header required. Use: Bearer <token>")
       else .proceed ⟨"mock-user-id", "mock@example.com", "authenticated"⟩) := by
  cases cfg <;> simp [authenticate, hb, mockUser]

/-- Witness for claim C4 at a request with no header (configured backend)
and a request with a non-Bearer header (unconfigured backend). -/
theorem c4_witness :
    authenticate true noGetUser none =
      .respond (errResponse 401 "Authorization header required. Use: Bearer <token>") ∧
    authenticate false noGetUser (some "Basic abc") =
      .proceed ⟨"mock-user-id", "mock@example.com", "authenticated"⟩ := by
  constructor
  · simpa using c4_no_bearer_header true noGetUser none rfl
  · simpa using c4_no_bearer_header false noGetUser (some "Basic abc") (by decide)

/-! ## Claim C5 -/

/-- Claim C5: generateMockAnswer is a pure deterministic function (the
same input gives the same output on every call); it lower-cases its input
and checks an ordered list of keyword predicates; every input containing
the keyword rag case-insensitively yields the RAG-specific canned string,
and every input containing none of the known keywords yields the generic
fallback string. -/
theorem c5_generateMockAnswer_keywords (q : String) :
    generateMockAnswer q = generateMockAnswer q ∧
    (jsIncludes (jsLower q) "rag" = true → generateMockAnswer q = ragAnswer) ∧
    (mentionsKnownKeyword q = false → generateMockAnswer q = fallbackAnswer) := by
  refine ⟨rfl, fun h => ?_, fun h => ?_⟩
  · simp [generateMockAnswer, h]
  · simp only [mentionsKnownKeyword, Bool.or_eq_false_iff] at h
    simp [generateMockAnswer, h.1, h.2]

/-- Witness for claim C5: the input Explain RAG yields the RAG canned
string, and a keyword-free input yields the fallback string. -/
theorem c5_witness :
    generateMockAnswer "Explain RAG" = ragAnswer ∧
    generateMockAnswer "how do I cook pasta" = fallbackAnswer := by
  constructor
  · exact (c5_generateMockAnswer_keywords "Explain RAG").2.1 (by decide)
  · exact (c5_generateMockAnswer_keywords "how do I cook pasta").2.2 (by decide)

/-! ## Claim C6 -/

/-- Claim C6: searchResources returns an empty sequence (not an error)
when the backing store is unconfigured and converts every query error
into an empty result; in both situations the ask-jiji pipeline still
responds 200 with success true and an empty resources list rather than
failing the request. -/
theorem c6_search_failure_degrades (q : String) (db : DbState) (m : String) :
    searchResources false db q = [] ∧
    searchResources true (.failing m) q = [] ∧
    (askJijiRoute false okGetUser db (some "Bearer a.b.c")
        (.str "Explain RAG")).response =
      { status := 200, success := true,
        data := .ask ⟨generateMockAnswer "Explain RAG", []⟩,
        error := none, details := none } ∧
    (askJijiRoute true okGetUser (.failing m) (some "Bearer a.b.c")
        (.str "Explain RAG")).response =
      { status := 200, success := true,
        data := .ask ⟨generateMockAnswer "Explain RAG", []⟩,
        error := none, details := none } :=
  ⟨rfl, rfl, rfl, rfl⟩

/-! ## Claim C7 -/

/-- Claim C7: saveQuery is a total function that never propagates a
failure: with the service-role client unconfigured it performs no insert
and returns null whatever its arguments; with the client configured it
returns null both when the insert reports a database error and when the
insert throws (the exception is caught, logged and discarded). -/
theorem c7_saveQuery_never_fails (ins : InsertResult) (u : Option String)
    (qt : String) (ans : String) (ids : List String) (m : String) :
    saveQuery false ins u qt ans ids = none ∧
    saveQuery true (.dbError m) u qt ans ids = none ∧
    saveQuery true (.threw m) u qt ans ids = none :=
  ⟨rfl, rfl, rfl⟩

/-! ## Claim C8 -/

/-- Counterexample to claim C8 as stated: the claim says that in
production mode the error field of the terminal handler is a generic
message, but a typed AppError with statusCode 404 handled in production
mode carries its real message in the error field, because the code uses
the generic message only when the status code is 500. -/
theorem c8_counterexample :
    errorHandler true (.appError "boom" 404) =
      { status := 404, success := false, data := .noData,
        error := some "boom", details := none } ∧
    "boom" ≠ "Internal server error" := by
  decide

/-- Claim C8 as amended: the terminal handler takes its status code from
the AppError when the error is one and 500 otherwise, and the error field
of the body is the generic message exactly when running in production
mode AND the resulting status code is 500, and the real message of the
error otherwise. -/
theorem c8_status_and_message (prod : Bool) (m : String) (c : Nat) :
    errorHandler prod (.plain m) =
      { status := 500, success := false, data := .noData,
        error := some (if prod then "Internal server error" else m),
        details := none } ∧
    errorHandler prod (.appError m c) =
      { status := c, success := false, data := .noData,
        error := some (if prod && c == 500 then "Internal server error" else m),
        details := none } := by
  cases prod <;> simp [errorHandler, errMessage]

/-! ## Claim C9 -/

/-- Claim C9: for every successful ask-jiji request, the list of resource
ids handed to the background saveQuery call is exactly the list of ids of
the resources included in the 200 response data, in the same order. -/
theorem c9_logged_ids_match_response (user : Option AuthUser) (cfg : Bool)
    (db : DbState) (input : AskJijiInput) :
    ∃ d, (handleAskJiji user cfg db input).response.status = 200 ∧
      (handleAskJiji user cfg db input).response.data = .ask d ∧
      (handleAskJiji user cfg db input).savedCall =
        some ⟨userIdOrNull user, input.query, d.answer,
              d.resources.map (fun r => r.id)⟩ :=
  ⟨⟨generateMockAnswer input.query, searchResources cfg db input.query⟩, rfl, rfl, rfl⟩

/-! ## Claim C10 -/

/-- A string of positive length is not the empty string. -/
theorem ne_empty_of_length_pos (s : String) (h : 1 ≤ s.length) : s ≠ "" := by
  intro hEq
  rw [hEq] at h
  exact absurd h (by decide)

/-- The concatenated validation summary always has a non-empty prefix. -/
theorem validationSummary_ne_empty (ds : List ValidationErrorDetail) :
    validationSummary ds ≠ "" := by
  apply ne_empty_of_length_pos
  unfold validationSummary
  rw [String.length_append]
  have hp : ("Validation failed: " : String).length = 19 := by decide
  omega

/-- Every rejected outcome of the validation middleware is the 400
response built from its details list. -/
theorem validateBody_rejected_shape (b : BodyField) (r : HttpResponse)
    (hr : validateBody b = .rejected r) :
    ∃ ds, r = { status := 400, success := false, data := .noData,
                error := some (validationSummary ds), details := some ds } := by
  unfold validateBody at hr
  split at hr
  · simp at hr
  · injection hr with h2
    exact ⟨_, h2.symm⟩

/-- Every response written by the authentication middleware is one of its
four literal failure responses. -/
theorem authenticate_respond_cases (cfg : Bool) (getUser : String → GetUserResult)
    (h : Option String) (r : HttpResponse)
    (hr : authenticate cfg getUser h = .respond r) :
    r = errResponse 401 "Authorization header required. Use: Bearer <token>" ∨
    r = errResponse 401 "Invalid token format" ∨
    r = errResponse 401 "Invalid or expired token" ∨
    r = errResponse 500 "Authentication service unavailable" := by
  unfold authenticate at hr
  split at hr
  · split at hr
    · simp at hr
    · injection hr with h2
      exact Or.inl h2.symm
  · split at hr
    · split at hr
      · simp at hr
      · injection hr with h2
        exact Or.inr (Or.inl h2.symm)
    · split at hr
      · simp at hr
      · injection hr with h2
        exact Or.inr (Or.inr (Or.inl h2.symm))
      · injection hr with h2
        exact Or.inr (Or.inr (Or.inr h2.symm))

/-- Counterexample to claim C10 as stated: the claim says every 500
response carries a non-empty error string, but outside production mode
the terminal handler echoes the message of the incoming error, which is
the empty string for an error constructed without a message. -/
theorem c10_counterexample :
    (errorHandler false (.plain "")).status = 500 ∧
    (errorHandler false (.plain "")).success = false ∧
    (errorHandler false (.plain "")).error = some "" := by
  decide

/-- Claim C10 as amended: every 200 response (health and ask-jiji) has
success true and a data payload; the not-found 404, the validation 400
and the authentication 401/500 responses have success false, no data and
a non-empty error string; a terminal-handler response has success false,
no data and an error string that is present and generic (hence non-empty)
in production mode at status 500, and otherwise echoes the message of the
incoming error, hence is non-empty whenever that message is. -/
theorem c10_response_invariant :
    (∀ env ts, (healthHandler env ts).status = 200 ∧
      (healthHandler env ts).success = true ∧
      (healthHandler env ts).data = .health "healthy" ts env) ∧
    (∀ user cfg db input, (handleAskJiji user cfg db input).response.status = 200 ∧
      (handleAskJiji user cfg db input).response.success = true ∧
      ∃ d, (handleAskJiji user cfg db input).response.data = .ask d) ∧
    (∀ m p, (notFoundHandler m p).status = 404 ∧
      (notFoundHandler m p).success = false ∧
      (notFoundHandler m p).data = .noData ∧
      ∃ e, (notFoundHandler m p).error = some e ∧ e ≠ "") ∧
    (∀ b r, validateBody b = .rejected r → r.status = 400 ∧ r.success = false ∧
      r.data = .noData ∧ ∃ e, r.error = some e ∧ e ≠ "") ∧
    (∀ cfg getUser h r, authenticate cfg getUser h = .respond r →
      (r.status = 401 ∨ r.status = 500) ∧ r.success = false ∧ r.data = .noData ∧
      ∃ e, r.error = some e ∧ e ≠ "") ∧
    (∀ prod e, (errorHandler prod e).success = false ∧
      (errorHandler prod e).data = .noData ∧
      (errorHandler prod e).error ≠ none ∧
      (prod = true → (errorHandler prod e).status = 500 →
        (errorHandler prod e).error = some "Internal server error") ∧
      (errMessage e ≠ "" → ∃ s, (errorHandler prod e).error = some s ∧ s ≠ "")) := by
  refine ⟨fun env ts => ⟨rfl, rfl, rfl⟩,
    fun user cfg db input => ⟨rfl, rfl, _, rfl⟩,
    fun m p => ⟨rfl, rfl, rfl, "Route " ++ m ++ " " ++ p ++ " not found", rfl, ?_⟩,
    fun b r hr => ?_, fun cfg getUser h r hr => ?_, fun prod e => ?_⟩
  · apply ne_empty_of_length_pos
    rw [String.length_append]
    have hs : (" not found" : String).length = 10 := by decide
    omega
  · obtain ⟨ds, rfl⟩ := validateBody_rejected_shape b r hr
    exact ⟨rfl, rfl, rfl, validationSummary ds, rfl, validationSummary_ne_empty ds⟩
  · rcases authenticate_respond_cases cfg getUser h r hr with rfl | rfl | rfl | rfl
    · exact ⟨Or.inl rfl, rfl, rfl, _, rfl, by decide⟩
    · exact ⟨Or.inl rfl, rfl, rfl, _, rfl, by decide⟩
    · exact ⟨Or.inl rfl, rfl, rfl, _, rfl, by decide⟩
    · exact ⟨Or.inr rfl, rfl, rfl, _, rfl, by decide⟩
  · refine ⟨rfl, rfl, by simp [errorHandler], fun hp hs => ?_, fun hm => ?_⟩
    · subst hp
      cases e with
      | plain m => rfl
      | appError m c =>
        have hc : c = 500 := hs
        subst hc
        rfl
    · cases e with
      | plain m =>
        cases prod with
        | false => exact ⟨m, rfl, hm⟩
        | true => exact ⟨"Internal server error", rfl, by decide⟩
      | appError m c =>
        cases prod with
        | false => exact ⟨m, rfl, hm⟩
        | true =>
          by_cases hc : (c == 500) = true
          · refine ⟨"Internal server error", ?_, by decide⟩
            simp [errorHandler, hc]
          · refine ⟨m, ?_, hm⟩
            simp [errorHandler, errMessage, hc]

/-- Witness for claim C10 at a concrete authentication failure: the
configured middleware with a bearer header whose verification fails
responds 401 with success false, no data and a non-empty error. -/
theorem c10_witness :
    ((errResponse 401 "Invalid or expired token").status = 401 ∨
      (errResponse 401 "Invalid or expired token").status = 500) ∧
    (errResponse 401 "Invalid or expired token").success = false ∧
    (errResponse 401 "Invalid or expired token").data = .noData ∧
    ∃ e, (errResponse 401 "Invalid or expired token").error = some e ∧ e ≠ "" :=
  c10_response_invariant.2.2.2.2.1 true noGetUser (some "Bearer a.b.c")
    (errResponse 401 "Invalid or expired token") (by decide)
